import Mathlib

/-!
Shallow embedding of `src/cloudemu/validate_apis.py`, a conformance harness
that probes two emulated cloud services for readiness and then drives a fixed
ten-step create/read scenario against each of them.

The network is the only effectful collaborator.  It is modelled as an oracle:
each HTTP call made by the harness consults an oracle of type
`WireRequest → Transport` describing how `urllib.request.urlopen` behaves on
that call (a normal response, an `HTTPError`, or any other raised exception).
Scenario functions take an oracle per call position (`Nat → WireRequest →
Transport`), and return, next to the boolean the Python function returns, the
list of wire requests actually issued, so that statements about which steps
ran can be expressed.
-/

set_option autoImplicit false

namespace CloudEmu

/-- JSON values as used by the harness payloads (strings, numbers, objects). -/
inductive Json where
  | str (s : String)
  | num (n : Nat)
  | obj (fields : List (String × Json))

mutual

/-- Serialization of a payload exactly as `json.dumps` renders the values the
harness builds (default separators: items joined by ", ", keys and values by
": "; no escaping is needed for the characters the harness uses). -/
def jsonDumps : Json → String
  | Json.str s => "\"" ++ s ++ "\""
  | Json.num n => toString n
  | Json.obj fs => "\x7b" ++ jsonDumpsFields fs ++ "\x7d"

/-- Renders the comma-separated field list of a JSON object. -/
def jsonDumpsFields : List (String × Json) → String
  | [] => ""
  | (k, v) :: rest =>
    if rest.isEmpty then "\"" ++ k ++ "\": " ++ jsonDumps v
    else "\"" ++ k ++ "\": " ++ jsonDumps v ++ ", " ++ jsonDumpsFields rest

end

/-- Python truthiness of the `data` argument of `request` (`if data:`):
`None` and the empty dict are falsy, as are the empty string and zero. -/
def pyTruthy : Option Json → Bool
  | Option.none => false
  | some (Json.obj fs) => !fs.isEmpty
  | some (Json.str s) => !(s == "")
  | some (Json.num n) => !(n == 0)

/-- The HTTP request as put on the wire by `urllib`: method, URL, and the
optional serialized JSON body with its Content-Type header.  `request` only
attaches a body and the header when its `data` argument is truthy. -/
structure WireRequest where
  method : String
  url : String
  contentType : Option String
  body : Option String
deriving DecidableEq

/-- The three ways `urllib.request.urlopen` can behave on one call: return a
response object, raise `HTTPError` (carrying a status and an error body), or
raise any other exception (connection refused, timeout, DNS failure, ...). -/
inductive Transport where
  | ok (status : Nat) (body : String) (headers : List (String × String))
  | httpError (code : Nat) (body : String)
  | exn (msg : String)

/-- The `error` key of the dict `request` returns: absent on a normal
response, the literal `True` on the `HTTPError` path, and the exception
description string on the transport-failure path. -/
inductive ErrField where
  | none
  | flag
  | msg (s : String)
deriving DecidableEq

/-- The dict returned by `request`: `status` is always present; `body` and
`headers` are absent on the paths that do not set them (Python code reads the
body back with the defaulting lookup `res.get('body')`). -/
structure Response where
  status : Nat
  body : Option String
  headers : Option (List (String × String))
  error : ErrField

/-- Builds the wire request `request` issues for the given method, URL and
payload: a truthy payload is serialized and tagged `application/json`, a
falsy one (None or an empty dict) leaves body and Content-Type unset. -/
def mkWire (method url : String) (data : Option Json) : WireRequest :=
  if pyTruthy data then
    { method := method, url := url, contentType := some "application/json",
      body := data.map jsonDumps }
  else
    { method := method, url := url, contentType := Option.none, body := Option.none }

/-- Maps the transport outcome of one call to the dict `request` returns:
a normal response yields status/body/headers; `HTTPError` yields the error
status, the error body and `error = True`; any other exception yields
status 0 with the exception text and no body at all. -/
def responseOf : Transport → Response
  | Transport.ok s b hs =>
    { status := s, body := some b, headers := some hs, error := ErrField.none }
  | Transport.httpError c b =>
    { status := c, body := some b, headers := Option.none, error := ErrField.flag }
  | Transport.exn m =>
    { status := 0, body := Option.none, headers := Option.none, error := ErrField.msg m }

/-- Embedding of the harness's `request(method, url, data=None)`: build the
wire request, consult the oracle for the transport outcome of this one call,
and return the response dict together with the wire request issued.  The
Python function catches both `HTTPError` and every other exception, so it is
total: no outcome lets an error escape. -/
def request (o : WireRequest → Transport) (method url : String) (data : Option Json) :
    Response × WireRequest :=
  let req := mkWire method url data
  (responseOf (o req), req)

/-- Outcome of one readiness-probe attempt of `wait_for_port`: either
`urlopen` returned a response object with some status, or it raised (any
exception, `HTTPError` included, is caught by the bare `except`). -/
inductive ProbeOutcome where
  | ok (status : Nat)
  | exn

/-- Loop body of `wait_for_port` (`for i in range(retries)`), with `i` the
current attempt index and the second argument the remaining iterations.
Returns the boolean result together with one entry per attempt made,
recording whether a `time.sleep(1)` followed that attempt (the sleep happens
only in the `except` branch of the Python loop). -/
def wait_for_port_loop (probe : Nat → ProbeOutcome) (i : Nat) : Nat → Bool × List Bool
  | 0 => (false, [])
  | Nat.succ fuel =>
    match probe i with
    | ProbeOutcome.ok st =>
      if st == 200 then (true, [false])
      else
        let r := wait_for_port_loop probe (i + 1) fuel
        (r.1, false :: r.2)
    | ProbeOutcome.exn =>
      let r := wait_for_port_loop probe (i + 1) fuel
      (r.1, true :: r.2)

/-- Embedding of `wait_for_port(port, retries=20)`: probe the health endpoint
up to `retries` times, returning true on the first attempt whose response has
status 200.  The trace records, per attempt, whether the 1-second sleep ran. -/
def wait_for_port (probe : Nat → ProbeOutcome) (retries : Nat) : Bool × List Bool :=
  wait_for_port_loop probe 0 retries

/-- Whether attempt `i` of a probe observes a response with status 200 (an
attempt that raises observes none). -/
def probeSeen200 (probe : Nat → ProbeOutcome) (i : Nat) : Bool :=
  match probe i with
  | ProbeOutcome.ok st => st == 200
  | ProbeOutcome.exn => false

/-- Whether attempt `i` of a probe raises an exception. -/
def probeRaised (probe : Nat → ProbeOutcome) (i : Nat) : Bool :=
  match probe i with
  | ProbeOutcome.ok _ => false
  | ProbeOutcome.exn => true

/-- Base URL of the cloud-A (Azure) emulator. -/
def AZURE_HOST : String := "http://127.0.0.1:4566"

/-- Base URL of the cloud-B (GCP) emulator. -/
def GCP_HOST : String := "http://127.0.0.1:4567"

/-- Embedding of `test_azure()`.  `ts` is the value of `int(time.time())`
taken at the start of the function; `env k` is the transport oracle for the
k-th HTTP call.  Mirrors the Python straight-line code: each step issues a
request, prints, and returns False on the first failed assertion.  Next to
the boolean the function returns the list of wire requests issued, so the
early returns carry exactly the requests made up to that point. -/
def test_azure (ts : Nat) (env : Nat → WireRequest → Transport) : Bool × List WireRequest :=
  let acc := s!"testacc{ts}"
  let cont := s!"testcont{ts}"
  let blob := s!"testblob{ts}"
  let r0 := request (env 0) "PUT" s!"{AZURE_HOST}/blob/{acc}/{cont}"
    (some (Json.obj [("public_access", Json.str "container")]))
  if r0.1.status != 200 then (false, [r0.2]) else
  let r1 := request (env 1) "PUT" s!"{AZURE_HOST}/blob/{acc}/{cont}/{blob}"
    (some (Json.obj [("content", Json.str "hello_azure"), ("content_type", Json.str "text/plain")]))
  if r1.1.status != 200 then (false, [r0.2, r1.2]) else
  let r2 := request (env 2) "GET" s!"{AZURE_HOST}/blob/{acc}/{cont}/{blob}" Option.none
  if r2.1.status != 200 || r2.1.body != some "hello_azure" then (false, [r0.2, r1.2, r2.2]) else
  let db := s!"testdb{ts}"
  let coll := s!"testcoll{ts}"
  let r3 := request (env 3) "PUT" s!"{AZURE_HOST}/cosmos/{acc}/{db}"
    (some (Json.obj [("throughput", Json.num 400)]))
  if r3.1.status != 200 then (false, [r0.2, r1.2, r2.2, r3.2]) else
  let r4 := request (env 4) "PUT" s!"{AZURE_HOST}/cosmos/{acc}/{db}/{coll}"
    (some (Json.obj [("partition_key_path", Json.str "/pk")]))
  if r4.1.status != 200 then (false, [r0.2, r1.2, r2.2, r3.2, r4.2]) else
  let item_id := "item1"
  let pk := "pkval"
  let r5 := request (env 5) "POST" s!"{AZURE_HOST}/cosmos/{acc}/{db}/{coll}/items"
    (some (Json.obj [("item", Json.obj [("id", Json.str item_id), ("pk", Json.str pk),
      ("value", Json.str "data")]), ("partition_key", Json.str pk)]))
  if r5.1.status != 200 then (false, [r0.2, r1.2, r2.2, r3.2, r4.2, r5.2]) else
  let r6 := request (env 6) "GET" s!"{AZURE_HOST}/cosmos/{acc}/{db}/{coll}/items/{item_id}/{pk}"
    Option.none
  if r6.1.status != 200 then (false, [r0.2, r1.2, r2.2, r3.2, r4.2, r5.2, r6.2]) else
  let rg := s!"testrg{ts}"
  let vm := s!"testvm{ts}"
  let r7 := request (env 7) "PUT" s!"{AZURE_HOST}/compute/{rg}/vms/{vm}"
    (some (Json.obj [("location", Json.str "westus"), ("vm_size", Json.str "Standard_B1s"),
      ("os_type", Json.str "Linux"), ("admin_username", Json.str "azureuser")]))
  if r7.1.status != 200 then (false, [r0.2, r1.2, r2.2, r3.2, r4.2, r5.2, r6.2, r7.2]) else
  let r8 := request (env 8) "GET" s!"{AZURE_HOST}/compute/{rg}/vms/{vm}" Option.none
  if r8.1.status != 200 then
    (false, [r0.2, r1.2, r2.2, r3.2, r4.2, r5.2, r6.2, r7.2, r8.2]) else
  let topic := s!"testtopic{ts}"
  let r9 := request (env 9) "PUT" s!"{AZURE_HOST}/eventgrid/{rg}/topics/{topic}"
    (some (Json.obj [("location", Json.str "westus")]))
  if r9.1.status != 200 then
    (false, [r0.2, r1.2, r2.2, r3.2, r4.2, r5.2, r6.2, r7.2, r8.2, r9.2]) else
  (true, [r0.2, r1.2, r2.2, r3.2, r4.2, r5.2, r6.2, r7.2, r8.2, r9.2])

/-- Embedding of `test_gcp()`, analogous to `test_azure`. -/
def test_gcp (ts : Nat) (env : Nat → WireRequest → Transport) : Bool × List WireRequest :=
  let bucket := s!"testbucket{ts}"
  let obj := s!"testobj{ts}"
  let r0 := request (env 0) "PUT" s!"{GCP_HOST}/storage/{bucket}"
    (some (Json.obj [("location", Json.str "us-east1")]))
  if r0.1.status != 200 then (false, [r0.2]) else
  let r1 := request (env 1) "PUT" s!"{GCP_HOST}/storage/{bucket}/o/{obj}"
    (some (Json.obj [("content", Json.str "hello_gcp"), ("content_type", Json.str "text/plain")]))
  if r1.1.status != 200 then (false, [r0.2, r1.2]) else
  let r2 := request (env 2) "GET" s!"{GCP_HOST}/storage/{bucket}/o/{obj}" Option.none
  if r2.1.status != 200 || r2.1.body != some "hello_gcp" then (false, [r0.2, r1.2, r2.2]) else
  let proj := s!"testproj{ts}"
  let db := s!"testdb-fs{ts}"
  let coll := "users"
  let doc := "user1"
  let r3 := request (env 3) "PUT" s!"{GCP_HOST}/firestore/{proj}/databases/{db}"
    (some (Json.obj [("location_id", Json.str "us"), ("database_type", Json.str "native")]))
  if r3.1.status != 200 then (false, [r0.2, r1.2, r2.2, r3.2]) else
  let r4 := request (env 4) "PUT" s!"{GCP_HOST}/firestore/{proj}/databases/{db}/documents/{coll}/{doc}"
    (some (Json.obj [("fields", Json.obj [("name", Json.str "Alice"), ("age", Json.num 30)])]))
  if r4.1.status != 200 then (false, [r0.2, r1.2, r2.2, r3.2, r4.2]) else
  let r5 := request (env 5) "GET" s!"{GCP_HOST}/firestore/{proj}/databases/{db}/documents/{coll}/{doc}"
    Option.none
  if r5.1.status != 200 then (false, [r0.2, r1.2, r2.2, r3.2, r4.2, r5.2]) else
  let zone := "us-central1-a"
  let inst := s!"testinst{ts}"
  let r6 := request (env 6) "PUT" s!"{GCP_HOST}/compute/{proj}/zones/{zone}/instances/{inst}"
    (some (Json.obj [("machine_type", Json.str "e2-medium"), ("image", Json.str "debian-11"),
      ("network", Json.str "default")]))
  if r6.1.status != 200 then (false, [r0.2, r1.2, r2.2, r3.2, r4.2, r5.2, r6.2]) else
  let r7 := request (env 7) "GET" s!"{GCP_HOST}/compute/{proj}/zones/{zone}/instances/{inst}"
    Option.none
  if r7.1.status != 200 then (false, [r0.2, r1.2, r2.2, r3.2, r4.2, r5.2, r6.2, r7.2]) else
  let topic := s!"testtopic{ts}"
  let sub := s!"testsub{ts}"
  let r8 := request (env 8) "PUT" s!"{GCP_HOST}/pubsub/{proj}/topics/{topic}"
    (some (Json.obj []))
  if r8.1.status != 200 then
    (false, [r0.2, r1.2, r2.2, r3.2, r4.2, r5.2, r6.2, r7.2, r8.2]) else
  let r9 := request (env 9) "PUT" s!"{GCP_HOST}/pubsub/{proj}/subscriptions/{sub}"
    (some (Json.obj [("topic", Json.str topic), ("push_endpoint", Json.str "http://localhost/push")]))
  if r9.1.status != 200 then
    (false, [r0.2, r1.2, r2.2, r3.2, r4.2, r5.2, r6.2, r7.2, r8.2, r9.2]) else
  (true, [r0.2, r1.2, r2.2, r3.2, r4.2, r5.2, r6.2, r7.2, r8.2, r9.2])

/-- The assertion a scenario step applies to its response: either an exact
status check (`res['status'] != 200` guards) or an exact status-and-body
check (the two GET-and-compare steps). -/
inductive Check where
  | status (expected : Nat)
  | statusBody (expected : Nat) (body : String)
deriving DecidableEq

/-- Whether a response satisfies a step's assertion: the status must equal
the expected value exactly, and where a body is specified the body must equal
the expected text exactly. -/
def Check.passes : Check → Response → Bool
  | Check.status e, r => r.status == e
  | Check.statusBody e b, r => r.status == e && r.body == some b

/-- One scenario step: the request it issues and the assertion applied to
the response. -/
structure Step where
  method : String
  url : String
  data : Option Json
  check : Check

instance : Inhabited Step :=
  ⟨{ method := "", url := "", data := Option.none, check := Check.status 0 }⟩

/-- The wire request a step issues (independent of the oracle's answer). -/
def Step.wire (s : Step) : WireRequest :=
  mkWire s.method s.url s.data

/-- Whether the step passes its assertion when its call is answered by the
oracle for call position `j`. -/
def stepOK (env : Nat → WireRequest → Transport) (j : Nat) (s : Step) : Bool :=
  s.check.passes (request (env j) s.method s.url s.data).1

/-- The ten steps of the Azure scenario, read off `test_azure` line by line:
the same identifiers, URLs, payloads and assertions in the same order. -/
def azureSteps (ts : Nat) : List Step :=
  let acc := s!"testacc{ts}"
  let cont := s!"testcont{ts}"
  let blob := s!"testblob{ts}"
  let db := s!"testdb{ts}"
  let coll := s!"testcoll{ts}"
  let item_id := "item1"
  let pk := "pkval"
  let rg := s!"testrg{ts}"
  let vm := s!"testvm{ts}"
  let topic := s!"testtopic{ts}"
  [ { method := "PUT", url := s!"{AZURE_HOST}/blob/{acc}/{cont}",
      data := some (Json.obj [("public_access", Json.str "container")]),
      check := Check.status 200 },
    { method := "PUT", url := s!"{AZURE_HOST}/blob/{acc}/{cont}/{blob}",
      data := some (Json.obj [("content", Json.str "hello_azure"),
        ("content_type", Json.str "text/plain")]),
      check := Check.status 200 },
    { method := "GET", url := s!"{AZURE_HOST}/blob/{acc}/{cont}/{blob}",
      data := Option.none, check := Check.statusBody 200 "hello_azure" },
    { method := "PUT", url := s!"{AZURE_HOST}/cosmos/{acc}/{db}",
      data := some (Json.obj [("throughput", Json.num 400)]),
      check := Check.status 200 },
    { method := "PUT", url := s!"{AZURE_HOST}/cosmos/{acc}/{db}/{coll}",
      data := some (Json.obj [("partition_key_path", Json.str "/pk")]),
      check := Check.status 200 },
    { method := "POST", url := s!"{AZURE_HOST}/cosmos/{acc}/{db}/{coll}/items",
      data := some (Json.obj [("item", Json.obj [("id", Json.str item_id),
        ("pk", Json.str pk), ("value", Json.str "data")]),
        ("partition_key", Json.str pk)]),
      check := Check.status 200 },
    { method := "GET", url := s!"{AZURE_HOST}/cosmos/{acc}/{db}/{coll}/items/{item_id}/{pk}",
      data := Option.none, check := Check.status 200 },
    { method := "PUT", url := s!"{AZURE_HOST}/compute/{rg}/vms/{vm}",
      data := some (Json.obj [("location", Json.str "westus"),
        ("vm_size", Json.str "Standard_B1s"), ("os_type", Json.str "Linux"),
        ("admin_username", Json.str "azureuser")]),
      check := Check.status 200 },
    { method := "GET", url := s!"{AZURE_HOST}/compute/{rg}/vms/{vm}",
      data := Option.none, check := Check.status 200 },
    { method := "PUT", url := s!"{AZURE_HOST}/eventgrid/{rg}/topics/{topic}",
      data := some (Json.obj [("location", Json.str "westus")]),
      check := Check.status 200 } ]

/-- The ten steps of the GCP scenario, read off `test_gcp` line by line. -/
def gcpSteps (ts : Nat) : List Step :=
  let bucket := s!"testbucket{ts}"
  let obj := s!"testobj{ts}"
  let proj := s!"testproj{ts}"
  let db := s!"testdb-fs{ts}"
  let coll := "users"
  let doc := "user1"
  let zone := "us-central1-a"
  let inst := s!"testinst{ts}"
  let topic := s!"testtopic{ts}"
  let sub := s!"testsub{ts}"
  [ { method := "PUT", url := s!"{GCP_HOST}/storage/{bucket}",
      data := some (Json.obj [("location", Json.str "us-east1")]),
      check := Check.status 200 },
    { method := "PUT", url := s!"{GCP_HOST}/storage/{bucket}/o/{obj}",
      data := some (Json.obj [("content", Json.str "hello_gcp"),
        ("content_type", Json.str "text/plain")]),
      check := Check.status 200 },
    { method := "GET", url := s!"{GCP_HOST}/storage/{bucket}/o/{obj}",
      data := Option.none, check := Check.statusBody 200 "hello_gcp" },
    { method := "PUT", url := s!"{GCP_HOST}/firestore/{proj}/databases/{db}",
      data := some (Json.obj [("location_id", Json.str "us"),
        ("database_type", Json.str "native")]),
      check := Check.status 200 },
    { method := "PUT", url := s!"{GCP_HOST}/firestore/{proj}/databases/{db}/documents/{coll}/{doc}",
      data := some (Json.obj [("fields", Json.obj [("name", Json.str "Alice"),
        ("age", Json.num 30)])]),
      check := Check.status 200 },
    { method := "GET", url := s!"{GCP_HOST}/firestore/{proj}/databases/{db}/documents/{coll}/{doc}",
      data := Option.none, check := Check.status 200 },
    { method := "PUT", url := s!"{GCP_HOST}/compute/{proj}/zones/{zone}/instances/{inst}",
      data := some (Json.obj [("machine_type", Json.str "e2-medium"),
        ("image", Json.str "debian-11"), ("network", Json.str "default")]),
      check := Check.status 200 },
    { method := "GET", url := s!"{GCP_HOST}/compute/{proj}/zones/{zone}/instances/{inst}",
      data := Option.none, check := Check.status 200 },
    { method := "PUT", url := s!"{GCP_HOST}/pubsub/{proj}/topics/{topic}",
      data := some (Json.obj []), check := Check.status 200 },
    { method := "PUT", url := s!"{GCP_HOST}/pubsub/{proj}/subscriptions/{sub}",
      data := some (Json.obj [("topic", Json.str topic),
        ("push_endpoint", Json.str "http://localhost/push")]),
      check := Check.status 200 } ]

/-- Fold-with-early-exit over a step list: run each step in order against the
oracle for its call position, stopping at the first failed assertion.
Returns the boolean result and the wire requests issued. -/
def runSteps (env : Nat → WireRequest → Transport) : Nat → List Step → Bool × List WireRequest
  | _, [] => (true, [])
  | k, s :: rest =>
    let r := request (env k) s.method s.url s.data
    if s.check.passes r.1 then
      let t := runSteps env (k + 1) rest
      (t.1, r.2 :: t.2)
    else (false, [r.2])

/-- Embedding of the `__main__` block: probe port 4566 then 4567 (each with
the default budget of 20 attempts), exiting 1 if either prober fails; then
run `test_azure() and test_gcp()` with Python's short-circuiting `and`, and
exit 0 exactly when both succeed.  Returns the exit code together with the
wire requests issued by each family's scenario (empty when the scenario was
never invoked). -/
def mainRun (azProbe gcpProbe : Nat → ProbeOutcome) (tsA tsG : Nat)
    (azEnv gcpEnv : Nat → WireRequest → Transport) :
    Nat × List WireRequest × List WireRequest :=
  if !(wait_for_port azProbe 20).1 then (1, [], [])
  else if !(wait_for_port gcpProbe 20).1 then (1, [], [])
  else
    let az := test_azure tsA azEnv
    if az.1 then
      let g := test_gcp tsG gcpEnv
      if g.1 then (0, az.2, g.2) else (1, az.2, g.2)
    else (1, az.2, [])

/-! ### Helper lemmas -/

@[simp] theorem request_snd (o : WireRequest → Transport) (m u : String) (d : Option Json) :
    (request o m u d).2 = mkWire m u d := rfl

theorem request_fst (o : WireRequest → Transport) (m u : String) (d : Option Json) :
    (request o m u d).1 = responseOf (o (mkWire m u d)) := rfl

theorem wfp_loop_no200 (probe : Nat → ProbeOutcome) :
    ∀ (fuel i : Nat), (∀ j, j < fuel → probeSeen200 probe (i + j) = false) →
    (wait_for_port_loop probe i fuel).1 = false ∧
      (wait_for_port_loop probe i fuel).2.length = fuel := by
  intro fuel
  induction fuel with
  | zero => intro i _; exact ⟨rfl, rfl⟩
  | succ n ih =>
    intro i h
    have h0 : probeSeen200 probe i = false := by simpa using h 0 (Nat.succ_pos n)
    have hshift : ∀ j, j < n → probeSeen200 probe (i + 1 + j) = false := by
      intro j hj
      have := h (j + 1) (Nat.succ_lt_succ hj)
      have harith : i + (j + 1) = i + 1 + j := by omega
      rwa [harith] at this
    have hrest := ih (i + 1) hshift
    cases hp : probe i with
    | ok st =>
      have hst : (st == 200) = false := by simpa [probeSeen200, hp] using h0
      simp [wait_for_port_loop, hp, hst, hrest.1, hrest.2]
    | exn =>
      simp [wait_for_port_loop, hp, hrest.1, hrest.2]

theorem wfp_loop_hit (probe : Nat → ProbeOutcome) :
    ∀ (fuel i k : Nat), k < fuel →
    (∀ j, j < k → probeSeen200 probe (i + j) = false) →
    probeSeen200 probe (i + k) = true →
    (wait_for_port_loop probe i fuel).1 = true ∧
      (wait_for_port_loop probe i fuel).2.length = k + 1 := by
  intro fuel
  induction fuel with
  | zero => intro i k hk; exact absurd hk (Nat.not_lt_zero k)
  | succ n ih =>
    intro i k hk hpass hhit
    cases k with
    | zero =>
      rw [Nat.add_zero] at hhit
      cases hp : probe i with
      | ok st =>
        have hst : (st == 200) = true := by simpa [probeSeen200, hp] using hhit
        simp [wait_for_port_loop, hp, hst]
      | exn => exact absurd hhit (by simp [probeSeen200, hp])
    | succ m =>
      have h0 : probeSeen200 probe i = false := by simpa using hpass 0 (Nat.succ_pos m)
      have hshift : ∀ j, j < m → probeSeen200 probe (i + 1 + j) = false := by
        intro j hj
        have := hpass (j + 1) (Nat.succ_lt_succ hj)
        have harith : i + (j + 1) = i + 1 + j := by omega
        rwa [harith] at this
      have hhit' : probeSeen200 probe (i + 1 + m) = true := by
        have harith : i + (m + 1) = i + 1 + m := by omega
        rwa [harith] at hhit
      have hrest := ih (i + 1) m (Nat.lt_of_succ_lt_succ hk) hshift hhit'
      cases hp : probe i with
      | ok st =>
        have hst : (st == 200) = false := by simpa [probeSeen200, hp] using h0
        simp [wait_for_port_loop, hp, hst, hrest.1, hrest.2]
      | exn =>
        simp [wait_for_port_loop, hp, hrest.1, hrest.2]

theorem wfp_loop_sleeps (probe : Nat → ProbeOutcome) :
    ∀ (fuel i : Nat),
    (wait_for_port_loop probe i fuel).2.length ≤ fuel ∧
    ∀ k, k < (wait_for_port_loop probe i fuel).2.length →
      (wait_for_port_loop probe i fuel).2.getD k false = probeRaised probe (i + k) := by
  intro fuel
  induction fuel with
  | zero => intro i; exact ⟨Nat.le_refl 0, fun k hk => absurd hk (by simp [wait_for_port_loop])⟩
  | succ n ih =>
    intro i
    have hrest := ih (i + 1)
    cases hp : probe i with
    | ok st =>
      cases hst : st == 200 with
      | true =>
        refine ⟨by simp [wait_for_port_loop, hp, hst], ?_⟩
        intro k hk
        simp [wait_for_port_loop, hp, hst] at hk ⊢
        subst hk
        simp [probeRaised, hp]
      | false =>
        refine ⟨by simp [wait_for_port_loop, hp, hst]; omega, ?_⟩
        intro k hk
        cases k with
        | zero => simp [wait_for_port_loop, hp, hst, probeRaised]
        | succ m =>
          have harith : i + (m + 1) = i + 1 + m := by omega
          simp [wait_for_port_loop, hp, hst] at hk ⊢
          rw [harith]
          simpa using hrest.2 m (by simpa using hk)
    | exn =>
      refine ⟨by simp [wait_for_port_loop, hp]; omega, ?_⟩
      intro k hk
      cases k with
      | zero => simp [wait_for_port_loop, hp, probeRaised]
      | succ m =>
        simp only [wait_for_port_loop, hp] at hk ⊢
        have harith : i + (m + 1) = i + 1 + m := by omega
        rw [List.getD_cons_succ, harith]
        exact hrest.2 m (by simpa using hk)


/-! ### Claim C1 -/

/-- C1: for each family scenario (`test_azure` with its 10 steps, `test_gcp`
with its 10 steps): if step `i` is the first step whose assertion fails, then
exactly the requests of steps `0..i` are issued (later steps never execute)
and the function returns false; if every step passes, it returns true having
issued all ten requests. -/
theorem claim_C1 :
    (∀ (ts : Nat) (env : Nat → WireRequest → Transport) (i : Nat), i < 10 →
      (∀ j, j < i → stepOK env j ((azureSteps ts).getD j default) = true) →
      stepOK env i ((azureSteps ts).getD i default) = false →
      test_azure ts env = (false, ((azureSteps ts).take (i + 1)).map Step.wire)) ∧
    (∀ (ts : Nat) (env : Nat → WireRequest → Transport),
      (∀ j, j < 10 → stepOK env j ((azureSteps ts).getD j default) = true) →
      test_azure ts env = (true, (azureSteps ts).map Step.wire)) ∧
    (∀ (ts : Nat) (env : Nat → WireRequest → Transport) (i : Nat), i < 10 →
      (∀ j, j < i → stepOK env j ((gcpSteps ts).getD j default) = true) →
      stepOK env i ((gcpSteps ts).getD i default) = false →
      test_gcp ts env = (false, ((gcpSteps ts).take (i + 1)).map Step.wire)) ∧
    (∀ (ts : Nat) (env : Nat → WireRequest → Transport),
      (∀ j, j < 10 → stepOK env j ((gcpSteps ts).getD j default) = true) →
      test_gcp ts env = (true, (gcpSteps ts).map Step.wire)) := by
  refine ⟨?_, ?_, ?_, ?_⟩
  · intro ts env i hi hpass hfail
    interval_cases i
    · simp only [stepOK, azureSteps, Check.passes, List.getD_cons_zero,
        List.getD_cons_succ] at hfail
      simp [test_azure, azureSteps, Step.wire]
      intro ha
      simp [ha] at hfail
    · have h0 := hpass 0 (by omega)
      simp only [stepOK, azureSteps, Check.passes, List.getD_cons_zero,
        List.getD_cons_succ] at h0 hfail
      simp only [beq_iff_eq, Bool.and_eq_true] at h0
      simp [test_azure, azureSteps, Step.wire, h0]
      intro ha
      simp [ha] at hfail
    · have h0 := hpass 0 (by omega)
      have h1 := hpass 1 (by omega)
      simp only [stepOK, azureSteps, Check.passes, List.getD_cons_zero,
        List.getD_cons_succ] at h0 h1 hfail
      simp only [beq_iff_eq, Bool.and_eq_true] at h0 h1
      simp [test_azure, azureSteps, Step.wire, h0, h1]
      intro ha hb
      simp [ha, hb] at hfail
    · have h0 := hpass 0 (by omega)
      have h1 := hpass 1 (by omega)
      have h2 := hpass 2 (by omega)
      simp only [stepOK, azureSteps, Check.passes, List.getD_cons_zero,
        List.getD_cons_succ] at h0 h1 h2 hfail
      simp only [beq_iff_eq, Bool.and_eq_true] at h0 h1 h2
      simp [test_azure, azureSteps, Step.wire, h0, h1, h2.1, h2.2]
      intro ha
      simp [ha] at hfail
    · have h0 := hpass 0 (by omega)
      have h1 := hpass 1 (by omega)
      have h2 := hpass 2 (by omega)
      have h3 := hpass 3 (by omega)
      simp only [stepOK, azureSteps, Check.passes, List.getD_cons_zero,
        List.getD_cons_succ] at h0 h1 h2 h3 hfail
      simp only [beq_iff_eq, Bool.and_eq_true] at h0 h1 h2 h3
      simp [test_azure, azureSteps, Step.wire, h0, h1, h2.1, h2.2, h3]
      intro ha
      simp [ha] at hfail
    · have h0 := hpass 0 (by omega)
      have h1 := hpass 1 (by omega)
      have h2 := hpass 2 (by omega)
      have h3 := hpass 3 (by omega)
      have h4 := hpass 4 (by omega)
      simp only [stepOK, azureSteps, Check.passes, List.getD_cons_zero,
        List.getD_cons_succ] at h0 h1 h2 h3 h4 hfail
      simp only [beq_iff_eq, Bool.and_eq_true] at h0 h1 h2 h3 h4
      simp [test_azure, azureSteps, Step.wire, h0, h1, h2.1, h2.2, h3, h4]
      intro ha
      simp [ha] at hfail
    · have h0 := hpass 0 (by omega)
      have h1 := hpass 1 (by omega)
      have h2 := hpass 2 (by omega)
      have h3 := hpass 3 (by omega)
      have h4 := hpass 4 (by omega)
      have h5 := hpass 5 (by omega)
      simp only [stepOK, azureSteps, Check.passes, List.getD_cons_zero,
        List.getD_cons_succ] at h0 h1 h2 h3 h4 h5 hfail
      simp only [beq_iff_eq, Bool.and_eq_true] at h0 h1 h2 h3 h4 h5
      simp [test_azure, azureSteps, Step.wire, h0, h1, h2.1, h2.2, h3, h4, h5]
      intro ha
      simp [ha] at hfail
    · have h0 := hpass 0 (by omega)
      have h1 := hpass 1 (by omega)
      have h2 := hpass 2 (by omega)
      have h3 := hpass 3 (by omega)
      have h4 := hpass 4 (by omega)
      have h5 := hpass 5 (by omega)
      have h6 := hpass 6 (by omega)
      simp only [stepOK, azureSteps, Check.passes, List.getD_cons_zero,
        List.getD_cons_succ] at h0 h1 h2 h3 h4 h5 h6 hfail
      simp only [beq_iff_eq, Bool.and_eq_true] at h0 h1 h2 h3 h4 h5 h6
      simp [test_azure, azureSteps, Step.wire, h0, h1, h2.1, h2.2, h3, h4, h5, h6]
      intro ha
      simp [ha] at hfail
    · have h0 := hpass 0 (by omega)
      have h1 := hpass 1 (by omega)
      have h2 := hpass 2 (by omega)
      have h3 := hpass 3 (by omega)
      have h4 := hpass 4 (by omega)
      have h5 := hpass 5 (by omega)
      have h6 := hpass 6 (by omega)
      have h7 := hpass 7 (by omega)
      simp only [stepOK, azureSteps, Check.passes, List.getD_cons_zero,
        List.getD_cons_succ] at h0 h1 h2 h3 h4 h5 h6 h7 hfail
      simp only [beq_iff_eq, Bool.and_eq_true] at h0 h1 h2 h3 h4 h5 h6 h7
      simp [test_azure, azureSteps, Step.wire, h0, h1, h2.1, h2.2, h3, h4, h5, h6, h7]
      intro ha
      simp [ha] at hfail
    · have h0 := hpass 0 (by omega)
      have h1 := hpass 1 (by omega)
      have h2 := hpass 2 (by omega)
      have h3 := hpass 3 (by omega)
      have h4 := hpass 4 (by omega)
      have h5 := hpass 5 (by omega)
      have h6 := hpass 6 (by omega)
      have h7 := hpass 7 (by omega)
      have h8 := hpass 8 (by omega)
      simp only [stepOK, azureSteps, Check.passes, List.getD_cons_zero,
        List.getD_cons_succ] at h0 h1 h2 h3 h4 h5 h6 h7 h8 hfail
      simp only [beq_iff_eq, Bool.and_eq_true] at h0 h1 h2 h3 h4 h5 h6 h7 h8
      simp [test_azure, azureSteps, Step.wire, h0, h1, h2.1, h2.2, h3, h4, h5, h6, h7, h8]
      intro ha
      simp [ha] at hfail
  · intro ts env hall
    have h0 := hall 0 (by omega)
    have h1 := hall 1 (by omega)
    have h2 := hall 2 (by omega)
    have h3 := hall 3 (by omega)
    have h4 := hall 4 (by omega)
    have h5 := hall 5 (by omega)
    have h6 := hall 6 (by omega)
    have h7 := hall 7 (by omega)
    have h8 := hall 8 (by omega)
    have h9 := hall 9 (by omega)
    simp only [stepOK, azureSteps, Check.passes, List.getD_cons_zero,
      List.getD_cons_succ] at h0 h1 h2 h3 h4 h5 h6 h7 h8 h9
    simp only [beq_iff_eq, Bool.and_eq_true] at h0 h1 h2 h3 h4 h5 h6 h7 h8 h9
    simp [test_azure, azureSteps, Step.wire, h0, h1, h2.1, h2.2, h3, h4, h5, h6, h7, h8, h9]
  · intro ts env i hi hpass hfail
    interval_cases i
    · simp only [stepOK, gcpSteps, Check.passes, List.getD_cons_zero,
        List.getD_cons_succ] at hfail
      simp [test_gcp, gcpSteps, Step.wire]
      intro ha
      simp [ha] at hfail
    · have h0 := hpass 0 (by omega)
      simp only [stepOK, gcpSteps, Check.passes, List.getD_cons_zero,
        List.getD_cons_succ] at h0 hfail
      simp only [beq_iff_eq, Bool.and_eq_true] at h0
      simp [test_gcp, gcpSteps, Step.wire, h0]
      intro ha
      simp [ha] at hfail
    · have h0 := hpass 0 (by omega)
      have h1 := hpass 1 (by omega)
      simp only [stepOK, gcpSteps, Check.passes, List.getD_cons_zero,
        List.getD_cons_succ] at h0 h1 hfail
      simp only [beq_iff_eq, Bool.and_eq_true] at h0 h1
      simp [test_gcp, gcpSteps, Step.wire, h0, h1]
      intro ha hb
      simp [ha, hb] at hfail
    · have h0 := hpass 0 (by omega)
      have h1 := hpass 1 (by omega)
      have h2 := hpass 2 (by omega)
      simp only [stepOK, gcpSteps, Check.passes, List.getD_cons_zero,
        List.getD_cons_succ] at h0 h1 h2 hfail
      simp only [beq_iff_eq, Bool.and_eq_true] at h0 h1 h2
      simp [test_gcp, gcpSteps, Step.wire, h0, h1, h2.1, h2.2]
      intro ha
      simp [ha] at hfail
    · have h0 := hpass 0 (by omega)
      have h1 := hpass 1 (by omega)
      have h2 := hpass 2 (by omega)
      have h3 := hpass 3 (by omega)
      simp only [stepOK, gcpSteps, Check.passes, List.getD_cons_zero,
        List.getD_cons_succ] at h0 h1 h2 h3 hfail
      simp only [beq_iff_eq, Bool.and_eq_true] at h0 h1 h2 h3
      simp [test_gcp, gcpSteps, Step.wire, h0, h1, h2.1, h2.2, h3]
      intro ha
      simp [ha] at hfail
    · have h0 := hpass 0 (by omega)
      have h1 := hpass 1 (by omega)
      have h2 := hpass 2 (by omega)
      have h3 := hpass 3 (by omega)
      have h4 := hpass 4 (by omega)
      simp only [stepOK, gcpSteps, Check.passes, List.getD_cons_zero,
        List.getD_cons_succ] at h0 h1 h2 h3 h4 hfail
      simp only [beq_iff_eq, Bool.and_eq_true] at h0 h1 h2 h3 h4
      simp [test_gcp, gcpSteps, Step.wire, h0, h1, h2.1, h2.2, h3, h4]
      intro ha
      simp [ha] at hfail
    · have h0 := hpass 0 (by omega)
      have h1 := hpass 1 (by omega)
      have h2 := hpass 2 (by omega)
      have h3 := hpass 3 (by omega)
      have h4 := hpass 4 (by omega)
      have h5 := hpass 5 (by omega)
      simp only [stepOK, gcpSteps, Check.passes, List.getD_cons_zero,
        List.getD_cons_succ] at h0 h1 h2 h3 h4 h5 hfail
      simp only [beq_iff_eq, Bool.and_eq_true] at h0 h1 h2 h3 h4 h5
      simp [test_gcp, gcpSteps, Step.wire, h0, h1, h2.1, h2.2, h3, h4, h5]
      intro ha
      simp [ha] at hfail
    · have h0 := hpass 0 (by omega)
      have h1 := hpass 1 (by omega)
      have h2 := hpass 2 (by omega)
      have h3 := hpass 3 (by omega)
      have h4 := hpass 4 (by omega)
      have h5 := hpass 5 (by omega)
      have h6 := hpass 6 (by omega)
      simp only [stepOK, gcpSteps, Check.passes, List.getD_cons_zero,
        List.getD_cons_succ] at h0 h1 h2 h3 h4 h5 h6 hfail
      simp only [beq_iff_eq, Bool.and_eq_true] at h0 h1 h2 h3 h4 h5 h6
      simp [test_gcp, gcpSteps, Step.wire, h0, h1, h2.1, h2.2, h3, h4, h5, h6]
      intro ha
      simp [ha] at hfail
    · have h0 := hpass 0 (by omega)
      have h1 := hpass 1 (by omega)
      have h2 := hpass 2 (by omega)
      have h3 := hpass 3 (by omega)
      have h4 := hpass 4 (by omega)
      have h5 := hpass 5 (by omega)
      have h6 := hpass 6 (by omega)
      have h7 := hpass 7 (by omega)
      simp only [stepOK, gcpSteps, Check.passes, List.getD_cons_zero,
        List.getD_cons_succ] at h0 h1 h2 h3 h4 h5 h6 h7 hfail
      simp only [beq_iff_eq, Bool.and_eq_true] at h0 h1 h2 h3 h4 h5 h6 h7
      simp [test_gcp, gcpSteps, Step.wire, h0, h1, h2.1, h2.2, h3, h4, h5, h6, h7]
      intro ha
      simp [ha] at hfail
    · have h0 := hpass 0 (by omega)
      have h1 := hpass 1 (by omega)
      have h2 := hpass 2 (by omega)
      have h3 := hpass 3 (by omega)
      have h4 := hpass 4 (by omega)
      have h5 := hpass 5 (by omega)
      have h6 := hpass 6 (by omega)
      have h7 := hpass 7 (by omega)
      have h8 := hpass 8 (by omega)
      simp only [stepOK, gcpSteps, Check.passes, List.getD_cons_zero,
        List.getD_cons_succ] at h0 h1 h2 h3 h4 h5 h6 h7 h8 hfail
      simp only [beq_iff_eq, Bool.and_eq_true] at h0 h1 h2 h3 h4 h5 h6 h7 h8
      simp [test_gcp, gcpSteps, Step.wire, h0, h1, h2.1, h2.2, h3, h4, h5, h6, h7, h8]
      intro ha
      simp [ha] at hfail
  · intro ts env hall
    have h0 := hall 0 (by omega)
    have h1 := hall 1 (by omega)
    have h2 := hall 2 (by omega)
    have h3 := hall 3 (by omega)
    have h4 := hall 4 (by omega)
    have h5 := hall 5 (by omega)
    have h6 := hall 6 (by omega)
    have h7 := hall 7 (by omega)
    have h8 := hall 8 (by omega)
    have h9 := hall 9 (by omega)
    simp only [stepOK, gcpSteps, Check.passes, List.getD_cons_zero,
      List.getD_cons_succ] at h0 h1 h2 h3 h4 h5 h6 h7 h8 h9
    simp only [beq_iff_eq, Bool.and_eq_true] at h0 h1 h2 h3 h4 h5 h6 h7 h8 h9
    simp [test_gcp, gcpSteps, Step.wire, h0, h1, h2.1, h2.2, h3, h4, h5, h6, h7, h8, h9]


/-- Witness for C1: with an oracle that refuses every connection, the Azure
scenario fails at its first step, issuing exactly one request. -/
theorem claim_C1_witness :
    test_azure 0 (fun _ _ => Transport.exn "connection refused") =
      (false, ((azureSteps 0).take 1).map Step.wire) :=
  claim_C1.1 0 (fun _ _ => Transport.exn "connection refused") 0 (by omega)
    (fun j hj => absurd hj (Nat.not_lt_zero j)) (by rfl)

/-! ### Claim C2 -/

/-- C2: in a run where both probers succeed, a failing Azure scenario means
`test_gcp` is never invoked (no cloud-B wire request is issued) and the
process exits with a nonzero code. -/
theorem claim_C2 (azProbe gcpProbe : Nat → ProbeOutcome) (tsA tsG : Nat)
    (azEnv gcpEnv : Nat → WireRequest → Transport)
    (h1 : (wait_for_port azProbe 20).1 = true)
    (h2 : (wait_for_port gcpProbe 20).1 = true)
    (h3 : (test_azure tsA azEnv).1 = false) :
    mainRun azProbe gcpProbe tsA tsG azEnv gcpEnv = (1, (test_azure tsA azEnv).2, []) ∧
    (mainRun azProbe gcpProbe tsA tsG azEnv gcpEnv).1 ≠ 0 := by
  constructor
  · simp [mainRun, h1, h2, h3]
  · simp [mainRun, h1, h2, h3]

/-- Witness for C2: ready probes, Azure scenario refused at step one. -/
theorem claim_C2_witness :
    mainRun (fun _ => ProbeOutcome.ok 200) (fun _ => ProbeOutcome.ok 200) 0 0
        (fun _ _ => Transport.exn "connection refused")
        (fun _ _ => Transport.exn "connection refused") =
      (1, (test_azure 0 (fun _ _ => Transport.exn "connection refused")).2, []) ∧
    (mainRun (fun _ => ProbeOutcome.ok 200) (fun _ => ProbeOutcome.ok 200) 0 0
        (fun _ _ => Transport.exn "connection refused")
        (fun _ _ => Transport.exn "connection refused")).1 ≠ 0 :=
  claim_C2 (fun _ => ProbeOutcome.ok 200) (fun _ => ProbeOutcome.ok 200) 0 0
    (fun _ _ => Transport.exn "connection refused")
    (fun _ _ => Transport.exn "connection refused") (by rfl) (by rfl) (by rfl)

/-! ### Claim C3 -/

/-- C3: for every retry budget of at least one attempt, `wait_for_port`
returns false after exactly `retries` attempts when no attempt observes
status 200, and returns true after exactly `k + 1` attempts when attempt `k`
is the first to observe status 200. -/
theorem claim_C3 (probe : Nat → ProbeOutcome) (retries : Nat) (_hr : 1 ≤ retries) :
    ((∀ i, i < retries → probeSeen200 probe i = false) →
      (wait_for_port probe retries).1 = false ∧
        (wait_for_port probe retries).2.length = retries) ∧
    (∀ k, k < retries → (∀ j, j < k → probeSeen200 probe j = false) →
      probeSeen200 probe k = true →
      (wait_for_port probe retries).1 = true ∧
        (wait_for_port probe retries).2.length = k + 1) := by
  refine ⟨?_, ?_⟩
  · intro h
    exact wfp_loop_no200 probe retries 0 (fun j hj => by simpa using h j hj)
  · intro k hk hpass hhit
    exact wfp_loop_hit probe retries 0 k hk (fun j hj => by simpa using hpass j hj)
      (by simpa using hhit)

/-- Witness for C3: an always-raising probe exhausts a budget of three
attempts; an immediately-healthy probe succeeds on the first of five. -/
theorem claim_C3_witness :
    ((wait_for_port (fun _ => ProbeOutcome.exn) 3).1 = false ∧
      (wait_for_port (fun _ => ProbeOutcome.exn) 3).2.length = 3) ∧
    ((wait_for_port (fun _ => ProbeOutcome.ok 200) 5).1 = true ∧
      (wait_for_port (fun _ => ProbeOutcome.ok 200) 5).2.length = 0 + 1) :=
  ⟨(claim_C3 (fun _ => ProbeOutcome.exn) 3 (by omega)).1 (fun i _ => rfl),
   (claim_C3 (fun _ => ProbeOutcome.ok 200) 5 (by omega)).2 0 (by omega)
     (fun j hj => absurd hj (Nat.not_lt_zero j)) rfl⟩

/-! ### Claim C4 -/

/-- C4: a transport-level failure (no response at all) makes `request` return
status 0 with the error description — an outcome distinct from every HTTP
status (all of which are at least 100) — and an `HTTPError` raised by the
transport is surfaced as a normal outcome carrying its status code and error
body.  The embedding of `request` is a total function: no error escapes. -/
theorem claim_C4 (o : WireRequest → Transport) (m u : String) (d : Option Json) :
    (∀ msg, o (mkWire m u d) = Transport.exn msg →
      (request o m u d).1 = { status := 0, body := Option.none, headers := Option.none,
                              error := ErrField.msg msg } ∧
      ∀ s, 100 ≤ s → (request o m u d).1.status ≠ s) ∧
    (∀ c b, o (mkWire m u d) = Transport.httpError c b →
      (request o m u d).1 = { status := c, body := some b, headers := Option.none,
                              error := ErrField.flag }) := by
  refine ⟨?_, ?_⟩
  · intro msg h
    refine ⟨by rw [request_fst, h]; rfl, ?_⟩
    intro s hs
    rw [request_fst, h]
    simp only [responseOf]
    omega
  · intro c b h
    rw [request_fst, h]
    rfl

/-- Witness for C4 at a refused connection and at a 404 error response. -/
theorem claim_C4_witness :
    (request (fun _ => Transport.exn "connection refused") "GET"
        "http://127.0.0.1:4566/health" Option.none).1 =
      { status := 0, body := Option.none, headers := Option.none,
        error := ErrField.msg "connection refused" } ∧
    (request (fun _ => Transport.httpError 404 "not found") "GET"
        "http://127.0.0.1:4566/health" Option.none).1 =
      { status := 404, body := some "not found", headers := Option.none,
        error := ErrField.flag } :=
  ⟨((claim_C4 (fun _ => Transport.exn "connection refused") "GET"
      "http://127.0.0.1:4566/health" Option.none).1 "connection refused" rfl).1,
   (claim_C4 (fun _ => Transport.httpError 404 "not found") "GET"
      "http://127.0.0.1:4566/health" Option.none).2 404 "not found" rfl⟩

/-! ### Claim C5 -/

/-- Oracle for the C5 run: every call succeeds with status 200 and the body
the scenario expects, except the blob GET (call 2), which returns the
uppercased body "HELLO_AZURE". -/
def helloUpperEnv : Nat → WireRequest → Transport :=
  fun k _ =>
    if k == 2 then Transport.ok 200 "HELLO_AZURE" []
    else Transport.ok 200 "hello_azure" []

/-- C5: step assertions compare the status to the expected value exactly and,
where a body is specified (the Azure blob GET expecting "hello_azure" and the
GCP object GET expecting "hello_gcp"), compare the body text exactly; a GET
whose body is "HELLO_AZURE" fails the scenario at that exact step (three
requests issued, none after). -/
theorem claim_C5 :
    (∀ (e : Nat) (r : Response), Check.passes (Check.status e) r = (r.status == e)) ∧
    (∀ (e : Nat) (b : String) (r : Response),
      Check.passes (Check.statusBody e b) r = (r.status == e && r.body == some b)) ∧
    (∀ ts, ((azureSteps ts).getD 2 default).check = Check.statusBody 200 "hello_azure" ∧
      ((gcpSteps ts).getD 2 default).check = Check.statusBody 200 "hello_gcp") ∧
    (test_azure 0 helloUpperEnv).1 = false ∧
    (test_azure 0 helloUpperEnv).2.length = 3 :=
  ⟨fun _ _ => rfl, fun _ _ _ => rfl, fun _ => ⟨rfl, rfl⟩, by decide, by decide⟩

/-! ### Claim C6 -/

/-- C6: the orchestrator probes the two targets in turn; if either prober
fails it exits 1 without issuing any scenario request, and it exits 0 exactly
when both probers succeed and both scenarios complete fully (every other path
exits 1). -/
theorem claim_C6 (azProbe gcpProbe : Nat → ProbeOutcome) (tsA tsG : Nat)
    (azEnv gcpEnv : Nat → WireRequest → Transport) :
    ((wait_for_port azProbe 20).1 = false →
      mainRun azProbe gcpProbe tsA tsG azEnv gcpEnv = (1, [], [])) ∧
    ((wait_for_port gcpProbe 20).1 = false →
      mainRun azProbe gcpProbe tsA tsG azEnv gcpEnv = (1, [], [])) ∧
    ((mainRun azProbe gcpProbe tsA tsG azEnv gcpEnv).1 = 0 ↔
      ((wait_for_port azProbe 20).1 = true ∧ (wait_for_port gcpProbe 20).1 = true ∧
        (test_azure tsA azEnv).1 = true ∧ (test_gcp tsG gcpEnv).1 = true)) ∧
    ((mainRun azProbe gcpProbe tsA tsG azEnv gcpEnv).1 = 0 ∨
      (mainRun azProbe gcpProbe tsA tsG azEnv gcpEnv).1 = 1) := by
  refine ⟨?_, ?_, ?_, ?_⟩
  · intro h
    simp [mainRun, h]
  · intro h
    cases ha : (wait_for_port azProbe 20).1 <;> simp [mainRun, h, ha]
  · cases ha : (wait_for_port azProbe 20).1 <;>
      cases hg : (wait_for_port gcpProbe 20).1 <;>
        cases hA : (test_azure tsA azEnv).1 <;>
          cases hG : (test_gcp tsG gcpEnv).1 <;>
            simp [mainRun, ha, hg, hA, hG]
  · cases ha : (wait_for_port azProbe 20).1 <;>
      cases hg : (wait_for_port gcpProbe 20).1 <;>
        cases hA : (test_azure tsA azEnv).1 <;>
          cases hG : (test_gcp tsG gcpEnv).1 <;>
            simp [mainRun, ha, hg, hA, hG]

/-- Witness for C6: a dead first target aborts the run with exit code 1 and
no scenario request. -/
theorem claim_C6_witness :
    mainRun (fun _ => ProbeOutcome.exn) (fun _ => ProbeOutcome.ok 200) 0 0
        (fun _ _ => Transport.exn "x") (fun _ _ => Transport.exn "x") = (1, [], []) :=
  (claim_C6 (fun _ => ProbeOutcome.exn) (fun _ => ProbeOutcome.ok 200) 0 0
      (fun _ _ => Transport.exn "x") (fun _ _ => Transport.exn "x")).1 (by rfl)

/-! ### Claim C7 -/

/-- Counterexample for C7: with a probe that answers every attempt with a
non-200 response that does not raise (status 204), a two-attempt run records
no sleep after the first failed attempt — the next attempt follows with no
wait, contradicting the claim that every failed attempt is followed by the
interval wait. -/
theorem claim_C7_cex :
    wait_for_port (fun _ => ProbeOutcome.ok 204) 2 = (false, [false, false]) := rfl

/-- C7 as amended: within the attempt budget, the prober sleeps (a fixed one
second — there is no configurable interval) after exactly those attempts that
raise an exception (transport errors, and HTTP error statuses surfaced as
`HTTPError`); an attempt that returns a non-200 response without raising is
retried immediately with no wait. -/
theorem claim_C7 (probe : Nat → ProbeOutcome) (retries : Nat) :
    (wait_for_port probe retries).2.length ≤ retries ∧
    ∀ k, k < (wait_for_port probe retries).2.length →
      (wait_for_port probe retries).2.getD k false = probeRaised probe k := by
  have h := wfp_loop_sleeps probe retries 0
  exact ⟨h.1, fun k hk => by simpa using h.2 k hk⟩

/-- Witness for C7: a raising probe sleeps after its first attempt. -/
theorem claim_C7_witness :
    (wait_for_port (fun _ => ProbeOutcome.exn) 2).2.length ≤ 2 ∧
    (wait_for_port (fun _ => ProbeOutcome.exn) 2).2.getD 0 false =
      probeRaised (fun _ => ProbeOutcome.exn) 0 :=
  ⟨(claim_C7 (fun _ => ProbeOutcome.exn) 2).1,
   (claim_C7 (fun _ => ProbeOutcome.exn) 2).2 0 (by decide)⟩

/-! ### Claim C8 -/

/-- Counterexample for C8: at `ts = 0`, the Cosmos item GET (step 6) does not
use the same path as the POST that created the item (step 5): the POST
targets the collection's items endpoint while the GET appends the item id and
partition key. -/
theorem claim_C8_cex :
    ((azureSteps 0).getD 6 default).url ≠ ((azureSteps 0).getD 5 default).url := by
  decide

/-- C8 as amended: scenario identifiers are derived from the single `ts`
value taken at the start of the scenario and reused, so every GET of a
PUT-created resource uses exactly the URL of its PUT (blob, VM, GCS object,
Firestore document, compute instance), while the Cosmos item GET extends the
item-creating POST's URL by the same item id and partition key that the POST
payload carried. -/
theorem claim_C8 (ts : Nat) :
    ((azureSteps ts).getD 2 default).url = ((azureSteps ts).getD 1 default).url ∧
    ((azureSteps ts).getD 8 default).url = ((azureSteps ts).getD 7 default).url ∧
    ((gcpSteps ts).getD 2 default).url = ((gcpSteps ts).getD 1 default).url ∧
    ((gcpSteps ts).getD 5 default).url = ((gcpSteps ts).getD 4 default).url ∧
    ((gcpSteps ts).getD 7 default).url = ((gcpSteps ts).getD 6 default).url ∧
    ((azureSteps 0).getD 6 default).url = ((azureSteps 0).getD 5 default).url ++ "/item1/pkval" :=
  ⟨rfl, rfl, rfl, rfl, rfl, by decide⟩

/-! ### Claim C9 -/

/-- C9: a falsy payload — `None` or the empty dict, the latter passed by the
GCP PubSub topic-creation step — produces a wire request with no body and no
Content-Type header, indistinguishable from an absent payload. -/
theorem claim_C9 (o : WireRequest → Transport) (m u : String) :
    mkWire m u Option.none =
      { method := m, url := u, contentType := Option.none, body := Option.none } ∧
    mkWire m u (some (Json.obj [])) = mkWire m u Option.none ∧
    request o m u (some (Json.obj [])) = request o m u Option.none ∧
    ∀ ts, ((gcpSteps ts).getD 8 default).data = some (Json.obj []) :=
  ⟨rfl, rfl, rfl, fun _ => rfl⟩

/-! ### Claim C10 -/

/-- C10: on a transport-level failure the response dict has no body at all
(`body = none` in the embedding, matching the missing key read back with
`res.get('body')`), and every body assertion evaluates totally on it to
false — `none` never equals the expected text — rather than raising. -/
theorem claim_C10 (o : WireRequest → Transport) (m u : String) (d : Option Json) (msg : String)
    (h : o (mkWire m u d) = Transport.exn msg) :
    (request o m u d).1.body = Option.none ∧
    ∀ (e : Nat) (b : String),
      Check.passes (Check.statusBody e b) (request o m u d).1 = false := by
  rw [request_fst, h]
  exact ⟨rfl, fun e b => by simp [Check.passes, responseOf]⟩

/-- Witness for C10 at a timed-out health probe. -/
theorem claim_C10_witness :
    (request (fun _ => Transport.exn "timed out") "GET" "http://127.0.0.1:4567/health"
        Option.none).1.body = Option.none ∧
    Check.passes (Check.statusBody 200 "hello_gcp")
      (request (fun _ => Transport.exn "timed out") "GET" "http://127.0.0.1:4567/health"
        Option.none).1 = false :=
  ⟨(claim_C10 (fun _ => Transport.exn "timed out") "GET" "http://127.0.0.1:4567/health"
      Option.none "timed out" rfl).1,
   (claim_C10 (fun _ => Transport.exn "timed out") "GET" "http://127.0.0.1:4567/health"
      Option.none "timed out" rfl).2 200 "hello_gcp"⟩

end CloudEmu
